import Mathlib

/-!
Shallow embedding of `src/_app-transcription-viewer/src-tauri/src/main.rs`
(the Tauri launcher shim of TranscriptionSuite).

The Rust file has two parts:

* `start_backend` probes an ordered list of candidate backend directories
  (a relative development path and two paths derived from the running
  executable's directory), looks for `main.py` in each, and on the first
  hit tries to spawn `uv run uvicorn ...`, falling back to
  `python -m uvicorn ...`; if nothing works it prints one warning and
  returns `None`.

* `main` stores the resulting `Option<Child>` in a `Mutex` managed by the
  Tauri app, and `on_window_event` handles `WindowEvent::Destroyed` by
  locking the mutex, `take()`-ing the child and killing it, ignoring the
  kill result.

Paths are modelled as component lists (`PathBuf::from("../backend")` is
`["..", "backend"]`, `PathBuf::default()` is `[]`, and `join` appends).
The filesystem and the OS spawn outcomes are an explicit environment.
Spawn attempts and printed lines are returned explicitly so that the
side-effect claims can be stated.
-/

namespace TranscriptionSuite

/-- An OS process handle (`std::process::Child`), abstracted as an id. -/
abbrev Child := Nat

/-- A filesystem path, as its list of components. -/
abbrev Path := List String

/-- A command to spawn: program name plus argument list
(`Command::new(program).args(args)`). -/
structure CmdSpec where
  program : String
  args : List String
deriving DecidableEq, Repr

/-- `Command::new("uv").args(["run", "uvicorn", "main:app", "--host", "127.0.0.1", "--port", "8000"])`. -/
def uvCmd : CmdSpec :=
  ⟨"uv", ["run", "uvicorn", "main:app", "--host", "127.0.0.1", "--port", "8000"]⟩

/-- `Command::new("python").args(["-m", "uvicorn", "main:app", "--host", "127.0.0.1", "--port", "8000"])`. -/
def pythonCmd : CmdSpec :=
  ⟨"python", ["-m", "uvicorn", "main:app", "--host", "127.0.0.1", "--port", "8000"]⟩

/-- The environment `start_backend` runs in: the (possibly failed) result of
`std::env::current_exe().ok().and_then(|p| p.parent() ...)`, the
filesystem's answer to `Path::exists`, and the OS's answer to spawning a
command in a working directory (`Ok(child)` modelled as `some child`,
a spawn error as `none`). -/
structure Env where
  exe_dir : Option Path
  fileExists : Path → Bool
  spawn : CmdSpec → Path → Option Child

/-- The `backend_paths` array of `start_backend`:
development path `../backend`, then
`exe_dir.clone().map(|p| p.join("../Resources/backend")).unwrap_or_default()`,
then `exe_dir.map(|p| p.join("backend")).unwrap_or_default()`.
`unwrap_or_default()` on a missing `exe_dir` yields the empty `PathBuf`. -/
def backend_paths (exe_dir : Option Path) : List Path :=
  [ ["..", "backend"],
    (exe_dir.map (fun p => p ++ ["..", "Resources", "backend"])).getD [],
    (exe_dir.map (fun p => p ++ ["backend"])).getD [] ]

/-- One printed diagnostic line of `start_backend`: the two `println!`
success messages (each carrying the candidate directory) and the
`eprintln!` warning. -/
inductive LogLine where
  | startedUv (dir : Path)
  | startedPython (dir : Path)
  | warnNoBackend
deriving DecidableEq, Repr

/-- A record of one `.spawn()` call: the command, the
`current_dir` it was given, and the outcome the OS returned. -/
structure Attempt where
  cmd : CmdSpec
  dir : Path
  result : Option Child
deriving DecidableEq, Repr

/-- What one call of `start_backend` produces: its return value, the spawn
calls it issued (in order), and the diagnostic lines it printed (in order). -/
structure RunResult where
  ret : Option Child
  attempts : List Attempt
  log : List LogLine
deriving DecidableEq, Repr

/-- The `for backend_path in &backend_paths` loop of `start_backend`:
for each candidate in order, if `backend_path.join("main.py")` exists, try
`uv`, then `python`; return on the first spawn success; after the loop,
print the warning and return `None`. -/
def start_backend_go (env : Env) : List Path → RunResult
  | [] => ⟨none, [], [.warnNoBackend]⟩
  | p :: rest =>
    if env.fileExists (p ++ ["main.py"]) then
      match env.spawn uvCmd p with
      | some child => ⟨some child, [⟨uvCmd, p, some child⟩], [.startedUv p]⟩
      | none =>
        match env.spawn pythonCmd p with
        | some child =>
            ⟨some child, [⟨uvCmd, p, none⟩, ⟨pythonCmd, p, some child⟩],
             [.startedPython p]⟩
        | none =>
            let r := start_backend_go env rest
            ⟨r.ret, ⟨uvCmd, p, none⟩ :: ⟨pythonCmd, p, none⟩ :: r.attempts, r.log⟩
    else
      start_backend_go env rest

/-- `fn start_backend() -> Option<Child>`, run over the candidate list
built from `exe_dir`. -/
def start_backend (env : Env) : RunResult :=
  start_backend_go env (backend_paths env.exe_dir)

/-- The state of the managed `BackendProcess(Mutex<Option<Child>>)` slot:
whether the mutex is poisoned (`lock()` returns `Err`) and the stored
`Option<Child>`. -/
structure SlotState where
  poisoned : Bool
  slot : Option Child
deriving DecidableEq, Repr

/-- The `WindowEvent::Destroyed` handler body: `if let Ok(mut guard) =
state.0.lock()` (a poisoned lock silently does nothing), then
`if let Some(mut child) = guard.take()` clears the slot and issues
`child.kill()`, whose result (`killOk`) is discarded (`let _ = ...`).
Returns the new slot state and the list of kill signals issued. -/
def on_window_destroyed (killOk : Child → Bool) (s : SlotState) :
    SlotState × List Child :=
  if s.poisoned then (s, [])
  else
    match s.slot with
    | some child =>
        let _ := killOk child
        ({ s with slot := none }, [child])
    | none => (s, [])

/-- The transitions that touch the slot after startup: in `main`, after
`.manage(BackendProcess(Mutex::new(backend)))`, the only code accessing
the slot is the `Destroyed` event handler. -/
inductive Step (killOk : Child → Bool) : SlotState → SlotState → Prop
  | destroyed (s : SlotState) : Step killOk s (on_window_destroyed killOk s).1

/-- The slot state `main` creates at startup: a fresh (unpoisoned) mutex
holding `start_backend()`'s return value. -/
def initState (env : Env) : SlotState :=
  ⟨false, (start_backend env).ret⟩

/-- If the entry-point check succeeds at index `i` of the candidate list and
fails at every earlier index, the loop's first spawn call is `uv` at
candidate `i`. -/
theorem go_first_attempt (env : Env) (l : List Path) :
    ∀ (i : Nat) (hi : i < l.length),
      env.fileExists (l.get ⟨i, hi⟩ ++ ["main.py"]) = true →
      (∀ j (hj : j < l.length), j < i →
        env.fileExists (l.get ⟨j, hj⟩ ++ ["main.py"]) = false) →
      (start_backend_go env l).attempts.head? =
        some ⟨uvCmd, l.get ⟨i, hi⟩, env.spawn uvCmd (l.get ⟨i, hi⟩)⟩ := by
  induction l with
  | nil => intro i hi; exact absurd hi (Nat.not_lt_zero i)
  | cons p rest ih =>
    intro i hi hex hprev
    cases i with
    | zero =>
      simp only [List.get] at hex ⊢
      cases hs : env.spawn uvCmd p with
      | some c => simp [start_backend_go, hex, hs]
      | none =>
        cases hs2 : env.spawn pythonCmd p with
        | some c => simp [start_backend_go, hex, hs, hs2]
        | none => simp [start_backend_go, hex, hs, hs2]
    | succ i =>
      have h0 : env.fileExists (p ++ ["main.py"]) = false :=
        hprev 0 (Nat.succ_pos _) (Nat.succ_pos _)
      have := ih i (Nat.lt_of_succ_lt_succ hi)
        hex
        (fun j hj hji =>
          hprev (j + 1) (Nat.succ_lt_succ hj) (Nat.succ_lt_succ hji))
      simpa [start_backend_go, h0] using this

/-- If the entry-point check first succeeds at index `i`, the `uv` spawn
fails there, and the `python` spawn succeeds with `c`, the loop returns
`some c`. -/
theorem go_fallback (env : Env) (l : List Path) :
    ∀ (i : Nat) (hi : i < l.length) (c : Child),
      env.fileExists (l.get ⟨i, hi⟩ ++ ["main.py"]) = true →
      (∀ j (hj : j < l.length), j < i →
        env.fileExists (l.get ⟨j, hj⟩ ++ ["main.py"]) = false) →
      env.spawn uvCmd (l.get ⟨i, hi⟩) = none →
      env.spawn pythonCmd (l.get ⟨i, hi⟩) = some c →
      (start_backend_go env l).ret = some c := by
  induction l with
  | nil => intro i hi; exact absurd hi (Nat.not_lt_zero i)
  | cons p rest ih =>
    intro i hi c hex hprev huv hpy
    cases i with
    | zero =>
      simp only [List.get] at hex huv hpy
      simp [start_backend_go, hex, huv, hpy]
    | succ i =>
      have h0 : env.fileExists (p ++ ["main.py"]) = false :=
        hprev 0 (Nat.succ_pos _) (Nat.succ_pos _)
      have := ih i (Nat.lt_of_succ_lt_succ hi) c
        hex
        (fun j hj hji =>
          hprev (j + 1) (Nat.succ_lt_succ hj) (Nat.succ_lt_succ hji))
        huv hpy
      simpa [start_backend_go, h0] using this

/-- If no candidate in the list passes the entry-point check, the loop does
nothing but print the one warning. -/
theorem go_no_candidate (env : Env) (l : List Path)
    (h : ∀ p ∈ l, env.fileExists (p ++ ["main.py"]) = false) :
    start_backend_go env l = ⟨none, [], [.warnNoBackend]⟩ := by
  induction l with
  | nil => rfl
  | cons p rest ih =>
    have h0 : env.fileExists (p ++ ["main.py"]) = false :=
      h p (List.mem_cons_self p rest)
    have := ih (fun q hq => h q (List.mem_cons_of_mem p hq))
    simpa [start_backend_go, h0] using this

/-- C1: if candidate `i` of the fixed priority list (development path,
packaged-resources path, flat bundled path) contains `main.py` and every
earlier candidate does not, `start_backend`'s first spawn attempt uses
candidate `i` as its working directory (so no earlier candidate is ever
spawned in). -/
theorem first_spawn_uses_first_existing_candidate (env : Env) (i : Nat)
    (hi : i < (backend_paths env.exe_dir).length)
    (hex : env.fileExists
      ((backend_paths env.exe_dir).get ⟨i, hi⟩ ++ ["main.py"]) = true)
    (hprev : ∀ j (hj : j < (backend_paths env.exe_dir).length), j < i →
      env.fileExists
        ((backend_paths env.exe_dir).get ⟨j, hj⟩ ++ ["main.py"]) = false) :
    (start_backend env).attempts.head? =
      some ⟨uvCmd, (backend_paths env.exe_dir).get ⟨i, hi⟩,
            env.spawn uvCmd ((backend_paths env.exe_dir).get ⟨i, hi⟩)⟩ :=
  go_first_attempt env _ i hi hex hprev

/-- Concrete filesystem for the C1 witness: only the development candidate
contains `main.py`, and every spawn succeeds. -/
def envW1 : Env :=
  ⟨none, fun q => q == ["..", "backend", "main.py"], fun _ _ => some 5⟩

/-- Witness for C1 at the concrete environment `envW1`, index 0. -/
theorem first_spawn_uses_first_existing_candidate_witness :
    (start_backend envW1).attempts.head? =
      some ⟨uvCmd, (backend_paths envW1.exe_dir).get ⟨0, by decide⟩,
            envW1.spawn uvCmd ((backend_paths envW1.exe_dir).get ⟨0, by decide⟩)⟩ :=
  first_spawn_uses_first_existing_candidate envW1 0 (by decide) (by decide)
    (fun j hj hj0 => absurd hj0 (Nat.not_lt_zero j))

/-- C2: on the first candidate whose `main.py` exists, if the primary
`uv run uvicorn ...` spawn fails and the secondary `python -m uvicorn ...`
spawn succeeds with child `c`, `start_backend` returns `some c`, the
secondary command's handle. -/
theorem fallback_handle_returned (env : Env) (i : Nat) (c : Child)
    (hi : i < (backend_paths env.exe_dir).length)
    (hex : env.fileExists
      ((backend_paths env.exe_dir).get ⟨i, hi⟩ ++ ["main.py"]) = true)
    (hprev : ∀ j (hj : j < (backend_paths env.exe_dir).length), j < i →
      env.fileExists
        ((backend_paths env.exe_dir).get ⟨j, hj⟩ ++ ["main.py"]) = false)
    (huv : env.spawn uvCmd ((backend_paths env.exe_dir).get ⟨i, hi⟩) = none)
    (hpy : env.spawn pythonCmd ((backend_paths env.exe_dir).get ⟨i, hi⟩) = some c) :
    (start_backend env).ret = some c :=
  go_fallback env _ i hi c hex hprev huv hpy

/-- Concrete environment for the C2 witness: the development candidate has
`main.py`, `uv` fails to spawn, `python` spawns child 7. -/
def envW2 : Env :=
  ⟨none, fun q => q == ["..", "backend", "main.py"],
   fun cmd _ => if cmd == pythonCmd then some 7 else none⟩

/-- Witness for C2 at the concrete environment `envW2`. -/
theorem fallback_handle_returned_witness :
    (start_backend envW2).ret = some 7 :=
  fallback_handle_returned envW2 0 7 (by decide) (by decide)
    (fun j hj hj0 => absurd hj0 (Nat.not_lt_zero j)) (by decide) (by decide)

/-- C3: when no candidate directory contains `main.py`, `start_backend`
returns `none`, issues no spawn call at all (empty attempt list, so no
process is created), and prints exactly one diagnostic line. -/
theorem no_candidate_returns_none (env : Env)
    (h : ∀ p ∈ backend_paths env.exe_dir,
      env.fileExists (p ++ ["main.py"]) = false) :
    start_backend env = ⟨none, [], [.warnNoBackend]⟩ :=
  go_no_candidate env _ h

/-- Concrete environment for the C3 witness: an empty filesystem. -/
def envW3 : Env :=
  ⟨none, fun _ => false, fun _ _ => none⟩

/-- Witness for C3 at the concrete environment `envW3`. -/
theorem no_candidate_returns_none_witness :
    start_backend envW3 = ⟨none, [], [.warnNoBackend]⟩ :=
  no_candidate_returns_none envW3 (fun _ _ => rfl)

/-- Concrete environment refuting C4: the executable lookup failed
(`exe_dir = none`), yet the process's current directory contains
`main.py`, and every spawn succeeds. -/
def envC4 : Env :=
  ⟨none, fun q => q == ["main.py"], fun _ _ => some 0⟩

/-- C4 counterexample: when the executable lookup fails, the two
exe-derived candidates are not skipped — `unwrap_or_default()` turns them
into the empty path, whose entry-point check probes `main.py` relative to
the current directory and here succeeds, so `start_backend` spawns in the
defaulted (empty) directory and returns its child. -/
theorem exe_failure_candidate_not_skipped :
    envC4.exe_dir = none ∧
    (start_backend envC4).attempts.head? = some ⟨uvCmd, [], some 0⟩ ∧
    (start_backend envC4).ret = some 0 := by
  decide

/-- C4 amended: when the executable lookup fails, the two exe-derived
candidates collapse to the default empty path, whose entry-point check
probes `main.py` relative to the current directory; provided that file
does not exist there, the defaulted candidates contribute nothing —
`start_backend` behaves exactly as if only the development candidate were
probed — and the lookup failure is not fatal. -/
theorem exe_failure_defaults_to_dev_candidate (env : Env)
    (hexe : env.exe_dir = none)
    (hnm : env.fileExists ["main.py"] = false) :
    start_backend env = start_backend_go env [["..", "backend"]] := by
  unfold start_backend
  rw [hexe]
  show start_backend_go env [["..", "backend"], [], []] = _
  cases h0 : env.fileExists ["..", "backend", "main.py"] with
  | false => simp [start_backend_go, h0, hnm]
  | true =>
    cases hs : env.spawn uvCmd ["..", "backend"] with
    | some c => simp [start_backend_go, h0, hs]
    | none =>
      cases hs2 : env.spawn pythonCmd ["..", "backend"] with
      | some c => simp [start_backend_go, h0, hs, hs2]
      | none => simp [start_backend_go, h0, hs, hs2, hnm]

/-- Concrete environment for the C4 witness: executable lookup failed and
the current directory has no `main.py`. -/
def envW4 : Env :=
  ⟨none, fun _ => false, fun _ _ => none⟩

/-- Witness for the amended C4 at the concrete environment `envW4`. -/
theorem exe_failure_defaults_to_dev_candidate_witness :
    start_backend envW4 = start_backend_go envW4 [["..", "backend"]] :=
  exe_failure_defaults_to_dev_candidate envW4 rfl rfl

/-- C5: the destroyed handler is idempotent on the stored state — whatever
the slot state, firing the handler a second time leaves the state produced
by the first firing unchanged and issues no further kill signal. -/
theorem destroyed_handler_idempotent (killOk : Child → Bool) (s : SlotState) :
    on_window_destroyed killOk (on_window_destroyed killOk s).1 =
      ((on_window_destroyed killOk s).1, []) := by
  cases s with
  | mk poisoned slot => cases poisoned <;> cases slot <;>
      simp [on_window_destroyed]

/-- A handler invocation on a state whose slot is already empty changes
nothing and kills nothing. -/
theorem on_window_destroyed_of_none (killOk : Child → Bool) (s : SlotState)
    (h : s.slot = none) : on_window_destroyed killOk s = (s, []) := by
  cases s with
  | mk poisoned slot =>
    cases poisoned <;> simp_all [on_window_destroyed]

/-- Any slot holds at most one live handle: it is an `Option`. -/
theorem slot_toList_len_le_one (s : SlotState) : s.slot.toList.length ≤ 1 := by
  cases hx : s.slot <;> simp [hx]

/-- C6: along any sequence of post-startup transitions, the slot holds at
most one live handle (it is an `Option`), and once it is `none` it stays
`none` — no step ever writes a handle back. -/
theorem slot_never_repopulated (killOk : Child → Bool) (s t : SlotState)
    (h : Relation.ReflTransGen (Step killOk) s t) :
    t.slot.toList.length ≤ 1 ∧ (s.slot = none → t.slot = none) := by
  induction h with
  | refl => exact ⟨slot_toList_len_le_one s, fun hs => hs⟩
  | tail h1 h2 ih =>
    cases h2 with
    | destroyed =>
      refine ⟨slot_toList_len_le_one _, fun hs => ?_⟩
      rw [on_window_destroyed_of_none killOk _ (ih.2 hs)]
      exact ih.2 hs

/-- Witness for C6: one destroy step from the startup-like state
`⟨false, some 0⟩`. -/
theorem slot_never_repopulated_witness :
    (on_window_destroyed (fun _ => true) ⟨false, some 0⟩).1.slot.toList.length ≤ 1 ∧
    ((⟨false, some 0⟩ : SlotState).slot = none →
      (on_window_destroyed (fun _ => true) ⟨false, some 0⟩).1.slot = none) :=
  slot_never_repopulated (fun _ => true) ⟨false, some 0⟩ _
    (Relation.ReflTransGen.single (Step.destroyed _))

/-- C7: on a destroy event with an unpoisoned lock and a stored handle, the
handler clears the slot and issues exactly one kill signal to that child;
the outcome is the same for every kill result `killOk` (the kill error is
ignored). -/
theorem destroyed_handler_kills_and_clears (killOk : Child → Bool)
    (s : SlotState) (c : Child)
    (hp : s.poisoned = false) (hs : s.slot = some c) :
    on_window_destroyed killOk s = (⟨false, none⟩, [c]) := by
  cases s with
  | mk poisoned slot => subst hp; subst hs; simp [on_window_destroyed]

/-- Witness for C7: a stored child 3 whose kill call fails
(`killOk` constantly false); the handler still clears and signals. -/
theorem destroyed_handler_kills_and_clears_witness :
    on_window_destroyed (fun _ => false) ⟨false, some 3⟩ = (⟨false, none⟩, [3]) :=
  destroyed_handler_kills_and_clears (fun _ => false) ⟨false, some 3⟩ 3 rfl rfl

/-- At most one spawn attempt of the loop succeeds, a successful attempt's
child is the returned handle, and every attempt except possibly the last
one failed (the loop returns right after the first success). -/
theorem go_at_most_one_success (env : Env) (l : List Path) :
    ((start_backend_go env l).attempts.countP (fun a => a.result.isSome)) ≤ 1 ∧
    ((start_backend_go env l).attempts.all
      (fun a => !a.result.isSome || (a.result == (start_backend_go env l).ret))) ∧
    ((start_backend_go env l).attempts.dropLast.all
      (fun a => !a.result.isSome)) := by
  induction l with
  | nil => exact ⟨by simp [start_backend_go], by simp [start_backend_go],
      by simp [start_backend_go]⟩
  | cons p rest ih =>
    cases h : env.fileExists (p ++ ["main.py"]) with
    | false => simpa [start_backend_go, h] using ih
    | true =>
      cases hs : env.spawn uvCmd p with
      | some c => simp [start_backend_go, h, hs]
      | none =>
        cases hs2 : env.spawn pythonCmd p with
        | some c => simp [start_backend_go, h, hs, hs2]
        | none =>
          obtain ⟨ih1, ih2, ih3⟩ := ih
          refine ⟨?_, ?_, ?_⟩
          · simpa [start_backend_go, h, hs, hs2] using ih1
          · simpa [start_backend_go, h, hs, hs2] using ih2
          · cases hr : (start_backend_go env rest).attempts with
            | nil => simp [start_backend_go, h, hs, hs2, hr]
            | cons x xs =>
              rw [hr] at ih3
              simpa [start_backend_go, h, hs, hs2, hr, List.dropLast] using ih3

/-- C8: one call of `start_backend` spawns at most one process — at most
one of its spawn attempts succeeds, a successful attempt's child is
exactly the returned handle, and every attempt before the last one failed
(the function returns immediately after the first success; failed attempts
yield no child). -/
theorem at_most_one_process_spawned (env : Env) :
    ((start_backend env).attempts.countP (fun a => a.result.isSome)) ≤ 1 ∧
    ((start_backend env).attempts.all
      (fun a => !a.result.isSome || (a.result == (start_backend env).ret))) ∧
    ((start_backend env).attempts.dropLast.all
      (fun a => !a.result.isSome)) :=
  go_at_most_one_success env _

/-- C9: the primary and secondary launch commands differ only in the
invoking tool (`uv` with first argument `run` versus `python` with first
argument `-m`); the remaining arguments are identical, naming the same
server target with host `127.0.0.1` and port `8000`. -/
theorem commands_differ_only_in_tool :
    uvCmd.program = "uv" ∧ pythonCmd.program = "python" ∧
    uvCmd.args.head? = some "run" ∧ pythonCmd.args.head? = some "-m" ∧
    uvCmd.args.tail = pythonCmd.args.tail ∧
    uvCmd.args.tail =
      ["uvicorn", "main:app", "--host", "127.0.0.1", "--port", "8000"] :=
  ⟨rfl, rfl, rfl, rfl, rfl, rfl⟩

/-- C10: when the mutex is poisoned the destroy handler silently does
nothing — no kill signal is issued and the slot (possibly still holding a
live handle) is left unchanged. -/
theorem poisoned_lock_silently_ignored (killOk : Child → Bool)
    (s : SlotState) (hp : s.poisoned = true) :
    on_window_destroyed killOk s = (s, []) := by
  simp [on_window_destroyed, hp]

/-- Witness for C10: a poisoned lock with a live handle 7 still stored;
the handler leaves it stored and kills nothing. -/
theorem poisoned_lock_silently_ignored_witness :
    on_window_destroyed (fun _ => true) ⟨true, some 7⟩ = (⟨true, some 7⟩, []) :=
  poisoned_lock_silently_ignored (fun _ => true) ⟨true, some 7⟩ rfl

end TranscriptionSuite
